import Mathlib

/-!
Verification development for the ship-grounding event-extraction scripts.

The repository holds two Python pipelines:
  - a keyword-centric one (class GroundingEventExtractor), and
  - a matcher-centric one (class SpacyGroundingExtractor).

Text is embedded as a list of characters.  Python string operations used by
the code are modelled directly: `str.lower` as a character map over the
ASCII range, substring containment (the Python `in` operator) as an
explicit scan, and the regex call
`re.finditer(r"\b" + re.escape(pattern) + r"\b", text)` as a left-to-right
scan that reports non-overlapping whole-word occurrences, where a word
character is an ASCII alphanumeric character or an underscore.

The external NLP library (spaCy) is the collaborator of the spec: its
outputs (entities, token attributes, matcher hits, dependency walks) enter
the model as explicit data, and the code of this repository that consumes
them is embedded faithfully.
-/

/-- A piece of text, modelled as its character sequence. -/
abbrev Str := List Char

/-- Coerce a Lean string literal into the text model. -/
def str (s : String) : Str := s.toList

/-- The ASCII uppercase-to-lowercase table used to model Python `str.lower`
on the character range that the repository manipulates. -/
def asciiPairs : List (Char × Char) :=
  [('A', 'a'), ('B', 'b'), ('C', 'c'), ('D', 'd'), ('E', 'e'), ('F', 'f'),
   ('G', 'g'), ('H', 'h'), ('I', 'i'), ('J', 'j'), ('K', 'k'), ('L', 'l'),
   ('M', 'm'), ('N', 'n'), ('O', 'o'), ('P', 'p'), ('Q', 'q'), ('R', 'r'),
   ('S', 's'), ('T', 't'), ('U', 'u'), ('V', 'v'), ('W', 'w'), ('X', 'x'),
   ('Y', 'y'), ('Z', 'z')]

/-- Lower-case one character (model of Python `str.lower`, ASCII range). -/
def lowerChar (c : Char) : Char :=
  match asciiPairs.find? (fun p => p.1 == c) with
  | some p => p.2
  | none => c

/-- Lower-case a text (model of Python `str.lower`). -/
def lowerStr (s : Str) : Str := s.map lowerChar

/-- Python substring containment, `needle in hay` for strings. -/
def containsSub (needle hay : Str) : Bool :=
  (List.range (hay.length + 1)).any fun i =>
    (hay.drop i).take needle.length == needle

/-- Word character in the sense of the regex `\b` anchor (ASCII model of
Python `\w`). -/
def isWordChar (c : Char) : Bool := c.isAlphanum || c == '_'

/-- Whether the character at position `p` exists and is a word character. -/
def wordAtPos (text : Str) (p : Nat) : Bool :=
  match text[p]? with
  | some c => isWordChar c
  | none => false

/-- The regex word-boundary anchor `\b` at position `p` of `text`: the two
sides of the position differ in word-character-ness (positions outside the
text count as non-word). -/
def boundaryAt (text : Str) (p : Nat) : Bool :=
  (if p = 0 then false else wordAtPos text (p - 1)) != wordAtPos text p

/-- A whole-word occurrence of `pat` at position `i` of `text`: the regex
`\b pat \b` matches there. -/
def wwMatchAt (text pat : Str) (i : Nat) : Bool :=
  boundaryAt text i && ((text.drop i).take pat.length == pat) &&
    boundaryAt text (i + pat.length)

/-- Left-to-right scan of `re.finditer`: report a match, then resume right
after it; otherwise advance one position.  `fuel` bounds the number of
steps (it is set so that the scan always runs to the end of the text). -/
def scanFrom (text pat : Str) : Nat → Nat → List (Nat × Nat)
  | _, 0 => []
  | i, fuel + 1 =>
    if wwMatchAt text pat i then
      (i, i + pat.length) :: scanFrom text pat (i + pat.length) fuel
    else if i < text.length then
      scanFrom text pat (i + 1) fuel
    else []

/-- All (start, end) spans reported by
`re.finditer(r"\b" + re.escape(pat) + r"\b", text)`. -/
def findIter (text pat : Str) : List (Nat × Nat) :=
  scanFrom text pat 0 (text.length + 1)

/-- A pattern that can never overlap one of its own whole-word occurrences:
for every interior offset, either the shifted pattern disagrees with its
own prefix or the two characters around the offset have the same
word-character-ness (so no `\b` boundary can sit there). -/
def selfOverlapFree (pat : Str) : Bool :=
  (List.range pat.length).all fun d =>
    d == 0 || !(pat.drop d == pat.take (pat.length - d)) ||
      (wordAtPos pat (d - 1) == wordAtPos pat d)


/-- A named entity produced by the external analyzer: surface text plus a
coarse label such as GPE, LOC, FAC, DATE, TIME, ORG or PERSON. -/
structure Ent where
  text : Str
  label : Str
deriving DecidableEq

/-- A token produced by the external analyzer, with the attributes the
keyword-centric code reads: surface text, part-of-speech tag, dependency
label, and the surface text of its syntactic head. -/
structure Tok where
  text : Str
  pos : Str
  dep : Str
  headText : Str
deriving DecidableEq

namespace GroundingEventExtractor

/-- The analyzed document, as consumed by `extract_arguments`: the named
entities and the token sequence of the input text. -/
structure KwDoc where
  ents : List Ent
  toks : List Tok

/-- Event trigger words (`self.trigger_patterns`). -/
def trigger_patterns : List Str :=
  [str "grounded", str "grounding", str "ran aground", str "struck",
   str "hit", str "collided", str "beached", str "stranded",
   str "stuck", str "lodged", str "foundered", str "aground"]

/-- Event type keyword lists (`self.event_type_patterns`), in declaration
order. -/
def event_type_patterns : List (Str × List Str) :=
  [(str "grounding", [str "grounding", str "grounded", str "ran aground", str "aground"]),
   (str "collision", [str "struck", str "hit", str "collided", str "collision"]),
   (str "stranding", [str "stranded", str "beached", str "stuck", str "lodged"]),
   (str "accident", [str "accident", str "incident", str "casualty", str "mishap"])]

/-- Event argument keyword lists (`self.argument_patterns`), in declaration
order. -/
def argument_patterns : List (Str × List Str) :=
  [(str "vessel",
    [str "ship", str "vessel", str "tanker", str "cargo ship", str "container ship",
     str "bulk carrier", str "cruise ship", str "ferry", str "boat", str "MV",
     str "MT", str "MS"]),
   (str "location",
    [str "reef", str "rock", str "shoal", str "sandbar", str "beach", str "coast",
     str "harbor", str "port", str "channel", str "strait", str "bay", str "island",
     str "waters", str "sea", str "ocean"]),
   (str "cause",
    [str "weather", str "storm", str "fog", str "wind", str "wave", str "current",
     str "navigation error", str "mechanical failure", str "engine failure",
     str "steering failure", str "human error", str "poor visibility"]),
   (str "time",
    [str "morning", str "afternoon", str "evening", str "night", str "dawn", str "dusk",
     str "Monday", str "Tuesday", str "Wednesday", str "Thursday", str "Friday",
     str "Saturday", str "Sunday",
     str "January", str "February", str "March", str "April", str "May", str "June",
     str "July", str "August", str "September", str "October", str "November",
     str "December"]),
   (str "damage",
    [str "damage", str "breach", str "hole", str "crack", str "oil spill",
     str "pollution", str "leak", str "flooding", str "listing", str "capsized"]),
   (str "response",
    [str "rescue", str "salvage", str "tow", str "refloat", str "evacuate",
     str "Coast Guard", str "emergency", str "response", str "assist"])]

/-- `extract_trigger_words`: for each trigger keyword, every whole-word
occurrence in the lowercased text, reported as (keyword, start, end). -/
def extract_trigger_words (text : Str) : List (Str × Nat × Nat) :=
  trigger_patterns.flatMap fun pat =>
    (findIter (lowerStr text) pat).map fun r => (pat, r.1, r.2)

/-- The per-type score of `extract_event_type`: how many trigger matches
carry a keyword belonging to the given type keyword list. -/
def typeScore (pats : List Str) (triggers : List (Str × Nat × Nat)) : Nat :=
  (triggers.filter fun t => pats.contains t.1).length

/-- Model of the Python builtin `max(..., key=...)` over a nonempty
sequence of (key, score) pairs: keep the current best unless a later score
is strictly greater, so the first maximal key wins. -/
def pickMax (best : Str × Nat) : List (Str × Nat) → Str × Nat
  | [] => best
  | x :: xs => pickMax (if best.2 < x.2 then x else best) xs

/-- `extract_event_type`: "unknown" when there is no trigger; otherwise the
first event type of maximal score, falling back to "grounding" when every
score is zero.  (The `text` parameter of the Python method is unused.) -/
def extract_event_type (text : Str) (triggers : List (Str × Nat × Nat)) : Str :=
  if triggers.isEmpty then str "unknown"
  else
    match event_type_patterns.map (fun tp => (tp.1, typeScore tp.2 triggers)) with
    | [] => str "unknown"
    | s0 :: rest =>
      let m := pickMax s0 rest
      if 0 < m.2 then m.1 else str "grounding"

/-- Step 1 of `extract_arguments` for one category: for every keyword of
the category, if the lowercased keyword occurs in the lowercased text, add
the original-casing slice of every whole-word (case-insensitive) regex
occurrence. -/
def kwStep (text : Str) (pats : List Str) : List Str :=
  pats.flatMap fun p =>
    if containsSub (lowerStr p) (lowerStr text) then
      (findIter (lowerStr text) (lowerStr p)).map fun r =>
        (text.drop r.1).take (r.2 - r.1)
    else []

/-- The organization heuristic of step 2 of `extract_arguments`: the entity
text, lowercased, contains "guard", "rescue" or "maritime". -/
def guardish (t : Str) : Bool :=
  [str "guard", str "rescue", str "maritime"].any fun k =>
    containsSub k (lowerStr t)

/-- Step 2 of `extract_arguments` (the NER walk), as its contribution to
one category: GPE/LOC/FAC entities feed location, DATE/TIME entities feed
time, ORG entities feed response when `guardish` holds and vessel
otherwise; every other label (PERSON included) feeds nothing. -/
def nerStep (ents : List Ent) (cat : Str) : List Str :=
  ents.flatMap fun e =>
    if e.label ∈ [str "GPE", str "LOC", str "FAC"] then
      if cat = str "location" then [e.text] else []
    else if e.label ∈ [str "DATE", str "TIME"] then
      if cat = str "time" then [e.text] else []
    else if e.label = str "ORG" then
      if guardish e.text then
        if cat = str "response" then [e.text] else []
      else
        if cat = str "vessel" then [e.text] else []
    else []

/-- Step 3 of `extract_arguments` (the dependency walk): proper-noun
subject tokens whose head text, lowercased, contains some trigger keyword;
they feed the vessel category. -/
def depStep (toks : List Tok) : List Str :=
  toks.flatMap fun t =>
    if t.pos == str "PROPN" && (t.dep == str "nsubj" || t.dep == str "nsubjpass") &&
        trigger_patterns.any (fun tr => containsSub tr (lowerStr t.headText)) then
      [t.text]
    else []

/-- The body of `extract_arguments` once the document is analyzed: each
declared category key, in declaration order, mapped to the deduplicated
concatenation of the three steps (step 3 feeds only vessel). -/
def extract_arguments_doc (text : Str) (doc : KwDoc) : List (Str × List Str) :=
  argument_patterns.map fun cp =>
    (cp.1,
     (kwStep text cp.2 ++ nerStep doc.ents cp.1 ++
       (if cp.1 = str "vessel" then depStep doc.toks else [])).dedup)

/-- `extract_arguments`: empty mapping when the analyzer is unavailable,
otherwise the result over the analyzed document. -/
def extract_arguments (nlp : Option (Str → KwDoc)) (text : Str) :
    List (Str × List Str) :=
  match nlp with
  | none => []
  | some f => extract_arguments_doc text (f text)

/-- The mapping returned by `extract`. -/
structure KwResult where
  text : Str
  trigger_words : List Str
  event_type : Str
  arguments : List (Str × List Str)
  trigger_positions : List (Str × Nat × Nat)

/-- `extract`: triggers, event type, arguments, plus the original text and
the trigger positions. -/
def extract (nlp : Option (Str → KwDoc)) (text : Str) : KwResult :=
  let triggers := extract_trigger_words text
  { text := text
    trigger_words := triggers.map fun t => t.1
    event_type := extract_event_type text triggers
    arguments := extract_arguments nlp text
    trigger_positions := triggers }

end GroundingEventExtractor

namespace SpacyGroundingExtractor

/-- The bags returned by `extract_with_matcher`.  The spaCy `Matcher` runs
externally; its labelled hits enter the model as data. -/
structure MatcherResults where
  triggers : List Str
  vessels : List Str
  locations : List Str
  causes : List Str
  damages : List Str
  responses : List Str

/-- The bags returned by `extract_with_ner`. -/
structure NerResults where
  organizations : List Str
  locations : List Str
  times : List Str
  persons : List Str

/-- The bags returned by `extract_with_dependency` (the dependency walk
itself reads the parse tree of the external analyzer, so its output enters
the model as data). -/
structure DepResults where
  vessels : List Str
  locations : List Str
  causes : List Str
  times : List Str
  damages : List Str
  responses : List Str

/-- `extract_with_ner`: bucket the named entities by label.  ORG entities
go to organizations, GPE/LOC/FAC to locations, DATE/TIME to times, PERSON
to persons; the branches are mutually exclusive, so one filter per bucket
is the loop of the source. -/
def extract_with_ner (ents : List Ent) : NerResults :=
  { organizations := (ents.filter fun e => e.label == str "ORG").map fun e => e.text
    locations := (ents.filter fun e =>
      e.label ∈ [str "GPE", str "LOC", str "FAC"]).map fun e => e.text
    times := (ents.filter fun e =>
      e.label ∈ [str "DATE", str "TIME"]).map fun e => e.text
    persons := (ents.filter fun e => e.label == str "PERSON").map fun e => e.text }

/-- The organization filter of the vessels merge in `extract`: some ship
word is a substring of the lowercased organization text. -/
def org_is_vessel (org : Str) : Bool :=
  [str "ship", str "vessel", str "tanker", str "ferry",
   str "MV", str "MT", str "MS"].any fun w => containsSub w (lowerStr org)

/-- The `arguments` mapping built inside `extract` (the merge of matcher,
NER and dependency results): every category except persons is
deduplicated; persons is the NER bag passed through unchanged. -/
def merge_arguments (m : MatcherResults) (n : NerResults) (d : DepResults) :
    List (Str × List Str) :=
  [(str "vessels",
    (m.vessels ++ d.vessels ++ n.organizations.filter org_is_vessel).dedup),
   (str "locations", (m.locations ++ n.locations ++ d.locations).dedup),
   (str "times", (n.times ++ d.times).dedup),
   (str "causes", (m.causes ++ d.causes).dedup),
   (str "damages", (m.damages ++ d.damages).dedup),
   (str "responses", (m.responses ++ d.responses).dedup),
   (str "persons", n.persons)]

/-- `_determine_event_type`: precedence chain over the lowercased trigger
strings, "unknown" when there is no trigger. -/
def _determine_event_type (triggers : List Str) : Str :=
  if triggers.isEmpty then str "unknown"
  else
    let tl := triggers.map lowerStr
    if [str "grounding", str "grounded", str "ran aground"].any (tl.contains ·) then
      str "grounding"
    else if [str "struck", str "hit", str "collided"].any (tl.contains ·) then
      str "collision_grounding"
    else if [str "stranded", str "beached", str "stuck"].any (tl.contains ·) then
      str "stranding"
    else
      str "marine_accident"

/-- The loaded pipeline: the analyzed entities of a text, together with the
matcher and dependency extraction results (both driven by the external
parse). -/
structure SpacyPipeline where
  ents : Str → List Ent
  matcherResults : Str → MatcherResults
  depResults : Str → DepResults

/-- The mapping returned by `extract` (the linguistic-features debug field
is presentation data and is omitted). -/
structure SpacyResult where
  text : Str
  trigger_words : List Str
  event_type : Str
  arguments : List (Str × List Str)

/-- `extract`: empty result when the analyzer is unavailable; otherwise
the merged result, with the text field truncated to 200 characters plus an
ellipsis when the input is longer than 200 characters. -/
def extract (nlp : Option SpacyPipeline) (text : Str) : Option SpacyResult :=
  match nlp with
  | none => none
  | some p =>
    let m := p.matcherResults text
    let n := extract_with_ner (p.ents text)
    let d := p.depResults text
    some
      { text := if 200 < text.length then text.take 200 ++ str "..." else text
        trigger_words := m.triggers.dedup
        event_type := _determine_event_type m.triggers
        arguments := merge_arguments m n d }

/-- A pipeline whose external collaborator reports nothing, used for
concrete evaluations. -/
def trivialPipeline : SpacyPipeline :=
  { ents := fun _ => []
    matcherResults := fun _ => ⟨[], [], [], [], [], []⟩
    depResults := fun _ => ⟨[], [], [], [], [], []⟩ }

end SpacyGroundingExtractor

/-- Value of a category key in an arguments mapping (empty when absent). -/
def argLookup (args : List (Str × List Str)) (c : Str) : List Str :=
  (args.lookup c).getD []

/-- The keyword list of one declared event type of the keyword-centric
variant. -/
def etPats (t : String) : List Str :=
  (GroundingEventExtractor.event_type_patterns.lookup (str t)).getD []

/-- The keyword count a trigger-string list gives to one type keyword
list; this is the score the claim attributes to the resolvers. -/
def keywordCount (pats : List Str) (trigs : List Str) : Nat :=
  (trigs.filter fun t => pats.contains t).length



/-! ### Facts about the whole-word scan -/

theorem wwMatchAt_parts {text pat : Str} {i : Nat} (h : wwMatchAt text pat i = true) :
    boundaryAt text i = true ∧ (text.drop i).take pat.length = pat ∧
      boundaryAt text (i + pat.length) = true := by
  simp only [wwMatchAt, Bool.and_eq_true, beq_iff_eq] at h
  exact ⟨h.1.1, h.1.2, h.2⟩

theorem wwMatchAt_le {text pat : Str} {j : Nat} (hne : pat ≠ [])
    (h : wwMatchAt text pat j = true) : j + pat.length ≤ text.length := by
  have hc := (wwMatchAt_parts h).2.1
  have hl := congrArg List.length hc
  simp only [List.length_take, List.length_drop] at hl
  have hp : 0 < pat.length := List.length_pos.mpr hne
  omega

theorem getElem?_of_take_drop {text pat : Str} {k m : Nat}
    (h : (text.drop k).take pat.length = pat) (hm : m < pat.length) :
    text[k + m]? = pat[m]? := by
  have h1 := @List.getElem?_take_of_lt _ (text.drop k) pat.length m hm
  rw [h] at h1
  rw [h1, List.getElem?_drop]

theorem wordAtPos_congr {text pat : Str} {q r : Nat} (h : text[q]? = pat[r]?) :
    wordAtPos text q = wordAtPos pat r := by
  unfold wordAtPos
  rw [h]

theorem scanFrom_sound {text pat : Str} :
    ∀ (fuel i : Nat) (p : Nat × Nat), p ∈ scanFrom text pat i fuel →
      wwMatchAt text pat p.1 = true ∧ p.2 = p.1 + pat.length ∧ i ≤ p.1 := by
  intro fuel
  induction fuel with
  | zero =>
    intro i p hp
    simp [scanFrom] at hp
  | succ fuel ih =>
    intro i p hp
    simp only [scanFrom] at hp
    split at hp
    next hm =>
      rcases List.mem_cons.mp hp with h | h
      · subst h
        exact ⟨hm, rfl, Nat.le_refl _⟩
      · obtain ⟨h1, h2, h3⟩ := ih _ _ h
        exact ⟨h1, h2, by omega⟩
    next hm =>
      split at hp
      next hi =>
        obtain ⟨h1, h2, h3⟩ := ih _ _ hp
        exact ⟨h1, h2, by omega⟩
      next hi =>
        simp at hp

theorem no_overlap {text pat : Str} {k j : Nat} (hfree : selfOverlapFree pat = true)
    (hk : wwMatchAt text pat k = true) (hj : wwMatchAt text pat j = true)
    (hkj : k < j) : k + pat.length ≤ j := by
  by_contra hlt
  push_neg at hlt
  have hd1 : 1 ≤ j - k := by omega
  have hdn : j - k < pat.length := by omega
  have hck := (wwMatchAt_parts hk).2.1
  have hcj := (wwMatchAt_parts hj).2.1
  have heq : pat.drop (j - k) = pat.take (pat.length - (j - k)) := by
    apply List.ext_getElem?
    intro m
    by_cases hm : m < pat.length - (j - k)
    · have l1 := List.getElem?_drop pat (j - k) m
      have l2 : pat[(j - k) + m]? = text[k + ((j - k) + m)]? :=
        (getElem?_of_take_drop hck (by omega)).symm
      have l3 : text[k + ((j - k) + m)]? = text[j + m]? := by
        congr 1
        omega
      have l4 : text[j + m]? = pat[m]? := getElem?_of_take_drop hcj (by omega)
      have l5 := @List.getElem?_take_of_lt _ pat (pat.length - (j - k)) m hm
      rw [l1, l2, l3, l4, l5]
    · have l1 : (pat.drop (j - k))[m]? = none := by
        apply List.getElem?_eq_none
        simp only [List.length_drop]
        omega
      have l2 : (pat.take (pat.length - (j - k)))[m]? = none := by
        apply List.getElem?_eq_none
        simp only [List.length_take]
        omega
      rw [l1, l2]
  have hbj := (wwMatchAt_parts hj).1
  have hj0 : ¬ j = 0 := by omega
  have e1 : text[j - 1]? = pat[(j - k) - 1]? := by
    have h5 := getElem?_of_take_drop hck (m := (j - k) - 1) (by omega)
    rw [show k + ((j - k) - 1) = j - 1 by omega] at h5
    exact h5
  have e2 : text[j]? = pat[j - k]? := by
    have h5 := getElem?_of_take_drop hck (m := j - k) (by omega)
    rw [show k + (j - k) = j by omega] at h5
    exact h5
  have w1 := wordAtPos_congr e1
  have w2 := wordAtPos_congr e2
  unfold boundaryAt at hbj
  rw [if_neg hj0, w1, w2] at hbj
  have hf := (List.all_eq_true.mp hfree) (j - k) (List.mem_range.mpr hdn)
  rw [Bool.or_eq_true, Bool.or_eq_true] at hf
  rcases hf with (hf | hf) | hf
  · have hz : j - k = 0 := eq_of_beq hf
    omega
  · rw [Bool.not_eq_true', beq_eq_false_iff_ne] at hf
    exact hf heq
  · have hf2 : wordAtPos pat (j - k - 1) = wordAtPos pat (j - k) := eq_of_beq hf
    rw [hf2] at hbj
    simp at hbj

theorem scanFrom_complete {text pat : Str} (hfree : selfOverlapFree pat = true)
    (hne : pat ≠ []) :
    ∀ (fuel i j : Nat), text.length + 1 ≤ fuel + i → i ≤ j →
      wwMatchAt text pat j = true → (j, j + pat.length) ∈ scanFrom text pat i fuel := by
  intro fuel
  induction fuel with
  | zero =>
    intro i j hfi hij hj
    exfalso
    have hle := wwMatchAt_le hne hj
    have hp : 0 < pat.length := List.length_pos.mpr hne
    omega
  | succ fuel ih =>
    intro i j hfi hij hj
    have hp : 0 < pat.length := List.length_pos.mpr hne
    simp only [scanFrom]
    split
    next hm =>
      rcases Nat.eq_or_lt_of_le hij with heq | hltij
      · subst heq
        exact List.mem_cons_self _ _
      · exact List.mem_cons_of_mem _
          (ih (i + pat.length) j (by omega) (no_overlap hfree hm hj hltij) hj)
    next hm =>
      by_cases hi : i < text.length
      · rw [if_pos hi]
        have hne2 : ¬ i = j := fun h => hm (h ▸ hj)
        exact ih (i + 1) j (by omega) (by omega) hj
      · exfalso
        have hle := wwMatchAt_le hne hj
        omega

theorem findIter_complete {text pat : Str} {j : Nat} (hfree : selfOverlapFree pat = true)
    (hne : pat ≠ []) (hj : wwMatchAt text pat j = true) :
    (j, j + pat.length) ∈ findIter text pat :=
  scanFrom_complete hfree hne (text.length + 1) 0 j (by omega) (by omega) hj

theorem extract_trigger_words_sound {text kw : Str} {s e : Nat}
    (h : (kw, s, e) ∈ GroundingEventExtractor.extract_trigger_words text) :
    kw ∈ GroundingEventExtractor.trigger_patterns ∧
      wwMatchAt (lowerStr text) kw s = true ∧ e = s + kw.length := by
  simp only [GroundingEventExtractor.extract_trigger_words, List.mem_flatMap,
    List.mem_map] at h
  obtain ⟨pat, hpat, r, hr, heq⟩ := h
  obtain ⟨h1, h2, -⟩ := scanFrom_sound _ _ _ hr
  simp only [Prod.ext_iff] at heq
  obtain ⟨hkw, hs, he⟩ := heq
  subst hkw
  subst hs
  subst he
  exact ⟨hpat, h1, h2⟩

theorem extract_trigger_words_complete {text pat : Str} {j : Nat}
    (hpat : pat ∈ GroundingEventExtractor.trigger_patterns)
    (hfree : selfOverlapFree pat = true) (hne : pat ≠ [])
    (hj : wwMatchAt (lowerStr text) pat j = true) :
    (pat, j, j + pat.length) ∈ GroundingEventExtractor.extract_trigger_words text := by
  simp only [GroundingEventExtractor.extract_trigger_words, List.mem_flatMap,
    List.mem_map]
  exact ⟨pat, hpat, ⟨(j, j + pat.length), findIter_complete hfree hne hj, rfl⟩⟩

/-! ### Facts about lowering and substring containment -/

theorem lowerChar_ne_M (c : Char) : lowerChar c ≠ 'M' := by
  unfold lowerChar
  cases hf : asciiPairs.find? (fun p => p.1 == c) with
  | none =>
    intro h
    have hall := List.find?_eq_none.mp hf ('M', 'm') (by decide)
    simp only [beq_iff_eq] at hall
    exact hall h.symm
  | some p =>
    have hmem := List.mem_of_find?_eq_some hf
    show p.2 ≠ 'M'
    fin_cases hmem <;> decide

theorem containsSub_head_M {needle hay : Str} (h0 : needle[0]? = some 'M')
    (h : containsSub needle hay = true) : ∃ i : Nat, hay[i]? = some 'M' := by
  unfold containsSub at h
  rw [List.any_eq_true] at h
  obtain ⟨i, hi, heq⟩ := h
  have heq2 : (hay.drop i).take needle.length = needle := eq_of_beq heq
  have hpos : 0 < needle.length := by
    cases needle with
    | nil => simp at h0
    | cons a t => simp
  have hg := getElem?_of_take_drop heq2 hpos
  rw [h0] at hg
  exact ⟨i + 0, hg⟩

theorem not_containsSub_M_lower {needle : Str} (h0 : needle[0]? = some 'M') (s : Str) :
    containsSub needle (lowerStr s) = false := by
  by_contra hc
  rw [Bool.not_eq_false] at hc
  obtain ⟨i, hi⟩ := containsSub_head_M h0 hc
  rw [lowerStr, List.getElem?_map] at hi
  cases hs : s[i]? with
  | none =>
    rw [hs] at hi
    simp at hi
  | some c =>
    rw [hs] at hi
    simp only [Option.map_some'] at hi
    exact lowerChar_ne_M c (Option.some.inj hi)

/-- Claim C10: in the matcher-centric variant, an organization entity is
merged into the vessels list exactly when it came from the matcher or
dependency bags, or its lowercased text contains one of "ship", "vessel",
"tanker", "ferry"; the entries "MV", "MT" and "MS" of the checked
ship-word list can never cause a match, because they are tested for
containment inside the already-lowercased entity text. -/
theorem claim_C10_ship_word_filter
    (m : SpacyGroundingExtractor.MatcherResults)
    (n : SpacyGroundingExtractor.NerResults)
    (d : SpacyGroundingExtractor.DepResults) (org : Str) :
    (org ∈ argLookup (SpacyGroundingExtractor.merge_arguments m n d) (str "vessels") ↔
      org ∈ m.vessels ∨ org ∈ d.vessels ∨
        (org ∈ n.organizations ∧
          ([str "ship", str "vessel", str "tanker", str "ferry"].any
            (fun w => containsSub w (lowerStr org))) = true)) ∧
    containsSub (str "MV") (lowerStr org) = false ∧
    containsSub (str "MT") (lowerStr org) = false ∧
    containsSub (str "MS") (lowerStr org) = false := by
  have hMV := @not_containsSub_M_lower (str "MV") (by decide) org
  have hMT := @not_containsSub_M_lower (str "MT") (by decide) org
  have hMS := @not_containsSub_M_lower (str "MS") (by decide) org
  refine ⟨?_, hMV, hMT, hMS⟩
  have hvs : argLookup (SpacyGroundingExtractor.merge_arguments m n d) (str "vessels") =
      (m.vessels ++ d.vessels ++
        n.organizations.filter SpacyGroundingExtractor.org_is_vessel).dedup := rfl
  rw [hvs]
  have hiv : ∀ o : Str, SpacyGroundingExtractor.org_is_vessel o = true ↔
      ([str "ship", str "vessel", str "tanker", str "ferry"].any
        (fun w => containsSub w (lowerStr o))) = true := by
    intro o
    have hMVo := @not_containsSub_M_lower (str "MV") (by decide) o
    have hMTo := @not_containsSub_M_lower (str "MT") (by decide) o
    have hMSo := @not_containsSub_M_lower (str "MS") (by decide) o
    unfold SpacyGroundingExtractor.org_is_vessel
    simp only [List.any_cons, List.any_nil, hMVo, hMTo, hMSo, Bool.or_false]
  simp only [List.mem_dedup, List.mem_append, List.mem_filter, hiv org, or_assoc]

/-- Claim C3: every (keyword, start, end) element returned by
`extract_trigger_words` is a case-insensitive, whole-word occurrence of a
trigger-dictionary keyword at those offsets (the regex word boundary holds
on both ends), and the reported end offset is start plus keyword length;
in particular no partial-word match is ever reported. -/
theorem claim_C3_whole_word_triggers (text kw : Str) (s e : Nat)
    (h : (kw, s, e) ∈ GroundingEventExtractor.extract_trigger_words text) :
    kw ∈ GroundingEventExtractor.trigger_patterns ∧
      wwMatchAt (lowerStr text) kw s = true ∧ e = s + kw.length :=
  extract_trigger_words_sound h

theorem claim_C3_witness :
    (str "hit") ∈ GroundingEventExtractor.trigger_patterns ∧
      wwMatchAt (lowerStr (str "a hit")) (str "hit") 2 = true ∧
      5 = 2 + (str "hit").length :=
  claim_C3_whole_word_triggers (str "a hit") (str "hit") 2 5 (by decide)

/-- Claim C9: every trigger match reported by trigger extraction has a
matched substring that, lowercased, equals its reported keyword, and the
reported keyword is itself an entry of the trigger dictionary; hence every
element of the trigger_words field of an extraction result is a dictionary
entry. -/
theorem claim_C9_trigger_invariant (text : Str)
    (nlp : Option (Str → GroundingEventExtractor.KwDoc)) :
    (∀ kw s e, (kw, s, e) ∈ GroundingEventExtractor.extract_trigger_words text →
      kw ∈ GroundingEventExtractor.trigger_patterns ∧
        lowerStr ((text.drop s).take (e - s)) = kw) ∧
    (∀ w, w ∈ (GroundingEventExtractor.extract nlp text).trigger_words →
      w ∈ GroundingEventExtractor.trigger_patterns) := by
  constructor
  · intro kw s e h
    obtain ⟨h1, h2, h3⟩ := extract_trigger_words_sound h
    refine ⟨h1, ?_⟩
    have hc := (wwMatchAt_parts h2).2.1
    have hes : e - s = kw.length := by omega
    rw [hes]
    rw [lowerStr, List.map_take, List.map_drop]
    exact hc
  · intro w hw
    have hw2 : w ∈ (GroundingEventExtractor.extract_trigger_words text).map
        (fun t => t.1) := hw
    rw [List.mem_map] at hw2
    obtain ⟨⟨kw, s, e⟩, hmem, heq⟩ := hw2
    have := (extract_trigger_words_sound hmem).1
    rw [← heq]
    exact this

theorem claim_C9_witness :
    ((str "hit") ∈ GroundingEventExtractor.trigger_patterns ∧
      lowerStr (((str "a HIT").drop 2).take (5 - 2)) = str "hit") ∧
    (str "hit") ∈ GroundingEventExtractor.trigger_patterns :=
  ⟨(claim_C9_trigger_invariant (str "a HIT") none).1 (str "hit") 2 5 (by decide),
   (claim_C9_trigger_invariant (str "a HIT") none).2 (str "hit") (by decide)⟩

/-- Claim C7: wherever the lowercased text has a whole-word occurrence of
the phrase "ran aground", extract_trigger_words reports a match for the
keyword "ran aground" there and also a separate, overlapping match for the
keyword "aground" four characters further in, both ending at the same
offset; overlapping occurrences are all retained. -/
theorem claim_C7_overlapping_matches (text : Str) (i : Nat)
    (h : wwMatchAt (lowerStr text) (str "ran aground") i = true) :
    (str "ran aground", i, i + 11) ∈ GroundingEventExtractor.extract_trigger_words text ∧
    (str "aground", i + 4, i + 11) ∈ GroundingEventExtractor.extract_trigger_words text := by
  have hlen11 : (str "ran aground").length = 11 := by decide
  have hlen7 : (str "aground").length = 7 := by decide
  constructor
  · have h1 := extract_trigger_words_complete (by decide) (by decide)
      (by decide) h
    rw [hlen11] at h1
    exact h1
  · obtain ⟨hb0, hc, hb1⟩ := wwMatchAt_parts h
    have e3 := getElem?_of_take_drop hc (m := 3) (by decide)
    have e4 := getElem?_of_take_drop hc (m := 4) (by decide)
    have hcontent : ((lowerStr text).drop (i + 4)).take 7 = str "aground" := by
      calc ((lowerStr text).drop (i + 4)).take 7
          = (((lowerStr text).drop i).drop 4).take 7 := by rw [List.drop_drop]
        _ = (((lowerStr text).drop i).take 11).drop 4 := by
            rw [List.drop_take]
        _ = (str "ran aground").drop 4 := by
            rw [hlen11] at hc
            rw [hc]
        _ = str "aground" := by decide
    have hb4 : boundaryAt (lowerStr text) (i + 4) = true := by
      unfold boundaryAt
      rw [if_neg (by omega : ¬ i + 4 = 0)]
      rw [show i + 4 - 1 = i + 3 by omega]
      rw [wordAtPos_congr e3, wordAtPos_congr e4]
      decide
    have hww : wwMatchAt (lowerStr text) (str "aground") (i + 4) = true := by
      unfold wwMatchAt
      rw [Bool.and_eq_true, Bool.and_eq_true]
      refine ⟨⟨hb4, ?_⟩, ?_⟩
      · rw [beq_iff_eq, hlen7]
        exact hcontent
      · rw [hlen7, show i + 4 + 7 = i + (str "ran aground").length by omega]
        exact hb1
    have h2 := extract_trigger_words_complete (by decide) (by decide)
      (by decide) hww
    rw [hlen7, show i + 4 + 7 = i + 11 by omega] at h2
    exact h2

theorem claim_C7_witness :
    (str "ran aground", 3, 14) ∈
        GroundingEventExtractor.extract_trigger_words (str "it ran aground") ∧
      (str "aground", 7, 14) ∈
        GroundingEventExtractor.extract_trigger_words (str "it ran aground") :=
  claim_C7_overlapping_matches (str "it ran aground") 3 (by decide)

/-! ### The event type resolvers -/

theorem extract_event_type_eval (text : Str) (triggers : List (Str × Nat × Nat))
    (hne : triggers ≠ []) :
    GroundingEventExtractor.extract_event_type text triggers =
      (let m := GroundingEventExtractor.pickMax
        (str "grounding", GroundingEventExtractor.typeScore
          [str "grounding", str "grounded", str "ran aground", str "aground"] triggers)
        [(str "collision", GroundingEventExtractor.typeScore
          [str "struck", str "hit", str "collided", str "collision"] triggers),
         (str "stranding", GroundingEventExtractor.typeScore
          [str "stranded", str "beached", str "stuck", str "lodged"] triggers),
         (str "accident", GroundingEventExtractor.typeScore
          [str "accident", str "incident", str "casualty", str "mishap"] triggers)]
       if 0 < m.2 then m.1 else str "grounding") := by
  unfold GroundingEventExtractor.extract_event_type
  rw [if_neg (by simp [hne] : ¬ triggers.isEmpty = true)]
  simp only [GroundingEventExtractor.event_type_patterns, List.map_cons, List.map_nil]

/-- Claim C1 (amended): the keyword-centric resolver counts, for each
declared event type, how many trigger keywords belong to that type keyword
set, and for every non-empty trigger list it returns the type whose count
strictly exceeds every other type count; on an exact tie between the
first-declared type (grounding) and collision, with no higher other count,
it returns the first-declared type.  (The matcher-centric resolver, by
contrast, does not count: see the counterexample.) -/
theorem claim_C1_count_based_resolution :
    (∀ (text : Str) (triggers : List (Str × Nat × Nat)), triggers ≠ [] →
      ∀ tp, tp ∈ GroundingEventExtractor.event_type_patterns →
        (∀ tq, tq ∈ GroundingEventExtractor.event_type_patterns → tq.1 ≠ tp.1 →
          GroundingEventExtractor.typeScore tq.2 triggers <
            GroundingEventExtractor.typeScore tp.2 triggers) →
        GroundingEventExtractor.extract_event_type text triggers = tp.1) ∧
    (∀ (text : Str) (triggers : List (Str × Nat × Nat)), triggers ≠ [] →
      GroundingEventExtractor.typeScore (etPats "grounding") triggers =
        GroundingEventExtractor.typeScore (etPats "collision") triggers →
      0 < GroundingEventExtractor.typeScore (etPats "grounding") triggers →
      GroundingEventExtractor.typeScore (etPats "stranding") triggers ≤
        GroundingEventExtractor.typeScore (etPats "grounding") triggers →
      GroundingEventExtractor.typeScore (etPats "accident") triggers ≤
        GroundingEventExtractor.typeScore (etPats "grounding") triggers →
      GroundingEventExtractor.extract_event_type text triggers = str "grounding") := by
  constructor
  · intro text triggers hne tp htp hdom
    simp only [GroundingEventExtractor.event_type_patterns, List.mem_cons,
      List.mem_singleton, List.not_mem_nil, or_false] at htp
    have hg := fun hne2 => hdom
      (str "grounding", [str "grounding", str "grounded", str "ran aground", str "aground"])
      (by simp [GroundingEventExtractor.event_type_patterns]) hne2
    have hc := fun hne2 => hdom
      (str "collision", [str "struck", str "hit", str "collided", str "collision"])
      (by simp [GroundingEventExtractor.event_type_patterns]) hne2
    have hs := fun hne2 => hdom
      (str "stranding", [str "stranded", str "beached", str "stuck", str "lodged"])
      (by simp [GroundingEventExtractor.event_type_patterns]) hne2
    have ha := fun hne2 => hdom
      (str "accident", [str "accident", str "incident", str "casualty", str "mishap"])
      (by simp [GroundingEventExtractor.event_type_patterns]) hne2
    rcases htp with rfl | rfl | rfl | rfl
    · have h2 := hc (by decide)
      have h3 := hs (by decide)
      have h4 := ha (by decide)
      simp only [] at h2 h3 h4
      rw [extract_event_type_eval _ _ hne]
      simp only [GroundingEventExtractor.pickMax]
      split_ifs <;> first | rfl | omega
    · have h1 := hg (by decide)
      have h3 := hs (by decide)
      have h4 := ha (by decide)
      simp only [] at h1 h3 h4
      rw [extract_event_type_eval _ _ hne]
      simp only [GroundingEventExtractor.pickMax]
      split_ifs <;> first | rfl | omega
    · have h1 := hg (by decide)
      have h2 := hc (by decide)
      have h4 := ha (by decide)
      simp only [] at h1 h2 h4
      rw [extract_event_type_eval _ _ hne]
      simp only [GroundingEventExtractor.pickMax]
      split_ifs <;> first | rfl | omega
    · have h1 := hg (by decide)
      have h2 := hc (by decide)
      have h3 := hs (by decide)
      simp only [] at h1 h2 h3
      rw [extract_event_type_eval _ _ hne]
      simp only [GroundingEventExtractor.pickMax]
      split_ifs <;> first | rfl | omega
  · intro text triggers hne he hp h3 h4
    have eg : etPats "grounding" =
        [str "grounding", str "grounded", str "ran aground", str "aground"] := by decide
    have ec : etPats "collision" =
        [str "struck", str "hit", str "collided", str "collision"] := by decide
    have es : etPats "stranding" =
        [str "stranded", str "beached", str "stuck", str "lodged"] := by decide
    have ea : etPats "accident" =
        [str "accident", str "incident", str "casualty", str "mishap"] := by decide
    rw [eg, ec] at he
    rw [eg] at hp
    rw [es, eg] at h3
    rw [ea, eg] at h4
    rw [extract_event_type_eval _ _ hne]
    simp only [GroundingEventExtractor.pickMax]
    split_ifs <;> first | rfl | omega

/-- Claim C1 counterexample: the matcher-centric resolver does not return
the type with the strictly highest keyword count.  For the trigger list
[struck, hit, grounded] the collision set counts 2 and the grounding set
counts 1, yet the resolver returns "grounding", because it tests the
grounding set first in a fixed precedence order. -/
theorem claim_C1_counterexample :
    SpacyGroundingExtractor._determine_event_type
        [str "struck", str "hit", str "grounded"] = str "grounding" ∧
      keywordCount [str "grounding", str "grounded", str "ran aground"]
        [str "struck", str "hit", str "grounded"] = 1 ∧
      keywordCount [str "struck", str "hit", str "collided"]
        [str "struck", str "hit", str "grounded"] = 2 := by
  refine ⟨by decide, by decide, by decide⟩

theorem claim_C1_witness :
    GroundingEventExtractor.extract_event_type (str "")
        [(str "stranded", 0, 8), (str "beached", 9, 16), (str "grounded", 20, 28)] =
      str "stranding" ∧
    GroundingEventExtractor.extract_event_type (str "")
        [(str "grounded", 0, 8), (str "struck", 9, 15)] = str "grounding" :=
  ⟨claim_C1_count_based_resolution.1 (str "")
      [(str "stranded", 0, 8), (str "beached", 9, 16), (str "grounded", 20, 28)]
      (by decide)
      (str "stranding", [str "stranded", str "beached", str "stuck", str "lodged"])
      (by simp [GroundingEventExtractor.event_type_patterns])
      (by decide),
   claim_C1_count_based_resolution.2 (str "")
      [(str "grounded", 0, 8), (str "struck", 9, 15)]
      (by decide) (by decide) (by decide) (by decide) (by decide)⟩

/-- Claim C5: whenever trigger extraction yields no trigger match, the
event type resolver returns the literal string "unknown", in both
variants. -/
theorem claim_C5_unknown_on_no_triggers :
    (∀ (text : Str) (nlp : Option (Str → GroundingEventExtractor.KwDoc)),
      GroundingEventExtractor.extract_trigger_words text = [] →
      (GroundingEventExtractor.extract nlp text).event_type = str "unknown") ∧
    (∀ (p : SpacyGroundingExtractor.SpacyPipeline) (text : Str),
      (p.matcherResults text).triggers = [] →
      (SpacyGroundingExtractor.extract (some p) text).map
        (fun r => r.event_type) = some (str "unknown")) := by
  constructor
  · intro text nlp h
    show GroundingEventExtractor.extract_event_type text
      (GroundingEventExtractor.extract_trigger_words text) = str "unknown"
    rw [h]
    rfl
  · intro p text h
    show (some (SpacyGroundingExtractor._determine_event_type
      (p.matcherResults text).triggers) : Option Str) = some (str "unknown")
    rw [h]
    rfl

theorem claim_C5_witness :
    (GroundingEventExtractor.extract none (str "calm seas")).event_type =
        str "unknown" ∧
      (SpacyGroundingExtractor.extract (some SpacyGroundingExtractor.trivialPipeline)
          (str "calm seas")).map (fun r => r.event_type) = some (str "unknown") :=
  ⟨claim_C5_unknown_on_no_triggers.1 (str "calm seas") none (by decide),
   claim_C5_unknown_on_no_triggers.2 SpacyGroundingExtractor.trivialPipeline
      (str "calm seas") rfl⟩

/-- Claim C2 counterexample: with the analyzer unavailable the
keyword-centric extract returns an empty arguments mapping even though the
plain keyword-substring extraction over the same text would find an
argument ("storm" in the cause category), so keyword-only argument
extraction is not in fact available without the analyzer. -/
theorem claim_C2_counterexample :
    (GroundingEventExtractor.extract none (str "storm damage")).arguments = [] ∧
      GroundingEventExtractor.kwStep (str "storm damage")
        ((GroundingEventExtractor.argument_patterns.lookup (str "cause")).getD []) =
        [str "storm"] := by
  exact ⟨rfl, by decide⟩

/-- Claim C2 (amended): if the analyzer handle is absent, the
keyword-centric extract still returns the trigger matches, their keywords
and the event type, but its arguments mapping is the empty mapping (the
keyword-substring argument pass is skipped too); the matcher-centric
extract returns the empty result.  Both are total functions, so no call
fails. -/
theorem claim_C2_no_analyzer_behaviour (text : Str) :
    (GroundingEventExtractor.extract none text).trigger_positions =
        GroundingEventExtractor.extract_trigger_words text ∧
      (GroundingEventExtractor.extract none text).trigger_words =
        (GroundingEventExtractor.extract_trigger_words text).map (fun t => t.1) ∧
      (GroundingEventExtractor.extract none text).event_type =
        GroundingEventExtractor.extract_event_type text
          (GroundingEventExtractor.extract_trigger_words text) ∧
      (GroundingEventExtractor.extract none text).arguments = [] ∧
      SpacyGroundingExtractor.extract none text = none :=
  ⟨rfl, rfl, rfl, rfl, rfl⟩

set_option maxRecDepth 4000 in
/-- Claim C8 counterexample: in the matcher-centric variant the text field
of the returned mapping is not the original input once the input exceeds
200 characters; a 201-character input comes back truncated with an
ellipsis. -/
theorem claim_C8_counterexample :
    ((SpacyGroundingExtractor.extract (some SpacyGroundingExtractor.trivialPipeline)
        (List.replicate 201 'a')).map (fun r => r.text)) ≠
      some (List.replicate 201 'a') := by
  intro h
  have h2 : (if 200 < (List.replicate 201 'a').length then
      (List.replicate 201 'a').take 200 ++ str "..." else List.replicate 201 'a') =
      List.replicate 201 'a' := Option.some.inj h
  rw [if_pos (by simp)] at h2
  have h3 := congrArg List.length h2
  simp only [List.length_append, List.length_take, List.length_replicate] at h3
  have h4 : (str "...").length = 3 := by decide
  omega

/-- Claim C8 (amended): the text field of the mapping returned by extract
equals the original input text always in the keyword-centric variant, and
in the matcher-centric variant whenever the input is at most 200
characters long (longer inputs are truncated to 200 characters plus an
ellipsis there). -/
theorem claim_C8_text_field :
    (∀ (nlp : Option (Str → GroundingEventExtractor.KwDoc)) (text : Str),
      (GroundingEventExtractor.extract nlp text).text = text) ∧
    (∀ (p : SpacyGroundingExtractor.SpacyPipeline) (text : Str),
      text.length ≤ 200 →
      (SpacyGroundingExtractor.extract (some p) text).map (fun r => r.text) =
        some text) := by
  constructor
  · intro nlp text
    rfl
  · intro p text h
    show some (if 200 < text.length then text.take 200 ++ str "..." else text) =
      some text
    rw [if_neg (by omega)]

theorem claim_C8_witness :
    (GroundingEventExtractor.extract none (str "abc")).text = str "abc" ∧
      (SpacyGroundingExtractor.extract (some SpacyGroundingExtractor.trivialPipeline)
          (str "abc")).map (fun r => r.text) = some (str "abc") :=
  ⟨claim_C8_text_field.1 none (str "abc"),
   claim_C8_text_field.2 SpacyGroundingExtractor.trivialPipeline (str "abc")
      (by decide)⟩

/-- Claim C4 counterexample: in the matcher-centric variant the persons
category of the arguments mapping is not duplicate-free; two identical
PERSON entities come through unchanged, because persons is the only
category the merge does not deduplicate. -/
theorem claim_C4_counterexample :
    ¬ (argLookup
        (SpacyGroundingExtractor.merge_arguments ⟨[], [], [], [], [], []⟩
          (SpacyGroundingExtractor.extract_with_ner
            [⟨str "John", str "PERSON"⟩, ⟨str "John", str "PERSON"⟩])
          ⟨[], [], [], [], [], []⟩)
        (str "persons")).Nodup := by
  decide

/-- Claim C4 (amended): with the analyzer loaded, the keyword-centric
arguments mapping has every declared category as a key, in declaration
order, and each value is a duplicate-free list whose members are exactly
the union of the keyword pass, the NER pass and (for vessel) the
dependency pass.  In the matcher-centric variant the seven keys are always
present and every category except persons is likewise a deduplicated
union of its contributing bags; the persons value is the NER persons bag
passed through unchanged, so it may contain duplicates. -/
theorem claim_C4_argument_aggregation :
    (∀ (text : Str) (doc : GroundingEventExtractor.KwDoc),
      (GroundingEventExtractor.extract_arguments_doc text doc).map Prod.fst =
        GroundingEventExtractor.argument_patterns.map Prod.fst) ∧
    (∀ (text : Str) (doc : GroundingEventExtractor.KwDoc) (c : Str) (vs : List Str),
      (c, vs) ∈ GroundingEventExtractor.extract_arguments_doc text doc → vs.Nodup) ∧
    (∀ (text : Str) (doc : GroundingEventExtractor.KwDoc) (c : Str) (vs : List Str),
      (c, vs) ∈ GroundingEventExtractor.extract_arguments_doc text doc →
      ∀ s : Str, s ∈ vs ↔
        (s ∈ GroundingEventExtractor.kwStep text
            ((GroundingEventExtractor.argument_patterns.lookup c).getD []) ∨
          s ∈ GroundingEventExtractor.nerStep doc.ents c ∨
          (c = str "vessel" ∧ s ∈ GroundingEventExtractor.depStep doc.toks))) ∧
    (∀ (m : SpacyGroundingExtractor.MatcherResults)
        (n : SpacyGroundingExtractor.NerResults)
        (d : SpacyGroundingExtractor.DepResults),
      (SpacyGroundingExtractor.merge_arguments m n d).map Prod.fst =
        [str "vessels", str "locations", str "times", str "causes",
         str "damages", str "responses", str "persons"]) ∧
    (∀ (m : SpacyGroundingExtractor.MatcherResults)
        (n : SpacyGroundingExtractor.NerResults)
        (d : SpacyGroundingExtractor.DepResults) (s : Str),
      (s ∈ argLookup (SpacyGroundingExtractor.merge_arguments m n d) (str "vessels") ↔
        s ∈ m.vessels ∨ s ∈ d.vessels ∨
          s ∈ n.organizations.filter SpacyGroundingExtractor.org_is_vessel) ∧
      (s ∈ argLookup (SpacyGroundingExtractor.merge_arguments m n d) (str "locations") ↔
        s ∈ m.locations ∨ s ∈ n.locations ∨ s ∈ d.locations) ∧
      (s ∈ argLookup (SpacyGroundingExtractor.merge_arguments m n d) (str "times") ↔
        s ∈ n.times ∨ s ∈ d.times) ∧
      (s ∈ argLookup (SpacyGroundingExtractor.merge_arguments m n d) (str "causes") ↔
        s ∈ m.causes ∨ s ∈ d.causes) ∧
      (s ∈ argLookup (SpacyGroundingExtractor.merge_arguments m n d) (str "damages") ↔
        s ∈ m.damages ∨ s ∈ d.damages) ∧
      (s ∈ argLookup (SpacyGroundingExtractor.merge_arguments m n d) (str "responses") ↔
        s ∈ m.responses ∨ s ∈ d.responses)) ∧
    (∀ (m : SpacyGroundingExtractor.MatcherResults)
        (n : SpacyGroundingExtractor.NerResults)
        (d : SpacyGroundingExtractor.DepResults),
      (argLookup (SpacyGroundingExtractor.merge_arguments m n d) (str "vessels")).Nodup ∧
      (argLookup (SpacyGroundingExtractor.merge_arguments m n d) (str "locations")).Nodup ∧
      (argLookup (SpacyGroundingExtractor.merge_arguments m n d) (str "times")).Nodup ∧
      (argLookup (SpacyGroundingExtractor.merge_arguments m n d) (str "causes")).Nodup ∧
      (argLookup (SpacyGroundingExtractor.merge_arguments m n d) (str "damages")).Nodup ∧
      (argLookup (SpacyGroundingExtractor.merge_arguments m n d) (str "responses")).Nodup) ∧
    (∀ (m : SpacyGroundingExtractor.MatcherResults)
        (n : SpacyGroundingExtractor.NerResults)
        (d : SpacyGroundingExtractor.DepResults),
      argLookup (SpacyGroundingExtractor.merge_arguments m n d) (str "persons") =
        n.persons) := by
  refine ⟨?_, ?_, ?_, ?_, ?_, ?_, ?_⟩
  · intro text doc
    rfl
  · intro text doc c vs h
    simp only [GroundingEventExtractor.extract_arguments_doc,
      GroundingEventExtractor.argument_patterns, List.map_cons, List.map_nil,
      List.mem_cons, List.not_mem_nil, or_false, Prod.mk.injEq] at h
    rcases h with ⟨-, rfl⟩ | ⟨-, rfl⟩ | ⟨-, rfl⟩ | ⟨-, rfl⟩ | ⟨-, rfl⟩ | ⟨-, rfl⟩ <;>
      exact List.nodup_dedup _
  · intro text doc c vs h
    simp only [GroundingEventExtractor.extract_arguments_doc,
      GroundingEventExtractor.argument_patterns, List.map_cons, List.map_nil,
      List.mem_cons, List.not_mem_nil, or_false, Prod.mk.injEq] at h
    rcases h with ⟨rfl, rfl⟩ | ⟨rfl, rfl⟩ | ⟨rfl, rfl⟩ | ⟨rfl, rfl⟩ | ⟨rfl, rfl⟩ | ⟨rfl, rfl⟩ <;>
      intro s
    · simp [List.mem_dedup, List.mem_append, or_assoc]
      try rfl
    · simp [List.mem_dedup, List.mem_append, or_assoc,
        (show ¬ (str "location" = str "vessel") from by decide)]
      try rfl
    · simp [List.mem_dedup, List.mem_append, or_assoc,
        (show ¬ (str "cause" = str "vessel") from by decide)]
      try rfl
    · simp [List.mem_dedup, List.mem_append, or_assoc,
        (show ¬ (str "time" = str "vessel") from by decide)]
      try rfl
    · simp [List.mem_dedup, List.mem_append, or_assoc,
        (show ¬ (str "damage" = str "vessel") from by decide)]
      try rfl
    · simp [List.mem_dedup, List.mem_append, or_assoc,
        (show ¬ (str "response" = str "vessel") from by decide)]
      try rfl
  · intro m n d
    rfl
  · intro m n d s
    have h1 : argLookup (SpacyGroundingExtractor.merge_arguments m n d) (str "vessels") =
        (m.vessels ++ d.vessels ++
          n.organizations.filter SpacyGroundingExtractor.org_is_vessel).dedup := rfl
    have h2 : argLookup (SpacyGroundingExtractor.merge_arguments m n d) (str "locations") =
        (m.locations ++ n.locations ++ d.locations).dedup := rfl
    have h3 : argLookup (SpacyGroundingExtractor.merge_arguments m n d) (str "times") =
        (n.times ++ d.times).dedup := rfl
    have h4 : argLookup (SpacyGroundingExtractor.merge_arguments m n d) (str "causes") =
        (m.causes ++ d.causes).dedup := rfl
    have h5 : argLookup (SpacyGroundingExtractor.merge_arguments m n d) (str "damages") =
        (m.damages ++ d.damages).dedup := rfl
    have h6 : argLookup (SpacyGroundingExtractor.merge_arguments m n d) (str "responses") =
        (m.responses ++ d.responses).dedup := rfl
    refine ⟨?_, ?_, ?_, ?_, ?_, ?_⟩
    · rw [h1]
      simp [List.mem_dedup, List.mem_append, or_assoc]
    · rw [h2]
      simp [List.mem_dedup, List.mem_append, or_assoc]
    · rw [h3]
      simp [List.mem_dedup, List.mem_append]
    · rw [h4]
      simp [List.mem_dedup, List.mem_append]
    · rw [h5]
      simp [List.mem_dedup, List.mem_append]
    · rw [h6]
      simp [List.mem_dedup, List.mem_append]
  · intro m n d
    exact ⟨List.nodup_dedup _, List.nodup_dedup _, List.nodup_dedup _,
      List.nodup_dedup _, List.nodup_dedup _, List.nodup_dedup _⟩
  · intro m n d
    rfl

theorem claim_C4_witness :
    ([str "reef"] : List Str).Nodup ∧
      (str "reef" ∈ ([str "reef"] : List Str) ↔
        (str "reef" ∈ GroundingEventExtractor.kwStep (str "a reef")
            ((GroundingEventExtractor.argument_patterns.lookup (str "location")).getD []) ∨
          str "reef" ∈ GroundingEventExtractor.nerStep ([] : List Ent) (str "location") ∨
          (str "location" = str "vessel" ∧
            str "reef" ∈ GroundingEventExtractor.depStep ([] : List Tok)))) :=
  ⟨claim_C4_argument_aggregation.2.1 (str "a reef") ⟨[], []⟩ (str "location")
      [str "reef"] (by decide),
   claim_C4_argument_aggregation.2.2.1 (str "a reef") ⟨[], []⟩ (str "location")
      [str "reef"] (by decide) (str "reef")⟩

/-- Claim C6 counterexample: in the matcher-centric variant an
organization entity whose text is "Philippine Coast Guard" is not
classified as response (it is not classified anywhere: the responses
category stays empty and the vessels category stays empty), because that
variant has no guard/rescue/maritime rule for organizations. -/
theorem claim_C6_counterexample :
    argLookup
        (SpacyGroundingExtractor.merge_arguments ⟨[], [], [], [], [], []⟩
          (SpacyGroundingExtractor.extract_with_ner
            [⟨str "Philippine Coast Guard", str "ORG"⟩])
          ⟨[], [], [], [], [], []⟩)
        (str "responses") = [] ∧
      argLookup
        (SpacyGroundingExtractor.merge_arguments ⟨[], [], [], [], [], []⟩
          (SpacyGroundingExtractor.extract_with_ner
            [⟨str "Philippine Coast Guard", str "ORG"⟩])
          ⟨[], [], [], [], [], []⟩)
        (str "vessels") = [] := by
  exact ⟨by decide, by decide⟩

/-- Claim C6 (amended): in the keyword-centric NER pass, location and
facility entities go to location, date and time entities go to time, and
an organization entity goes to response exactly when its text contains
(case-insensitively) guard, rescue or maritime, otherwise to vessel — so
"Philippine Coast Guard" goes to response and never to vessel there;
person entities are dropped in that variant (there is no person category).
In the matcher-centric variant person entities go to a separate persons
bucket, and the merged vessels category draws only on the matcher bag, the
dependency bag and ship-word organizations, never on persons; that variant
has no organization-to-response rule. -/
theorem claim_C6_entity_classification :
    (∀ t : Str,
      GroundingEventExtractor.nerStep [⟨t, str "GPE"⟩] (str "location") = [t] ∧
      GroundingEventExtractor.nerStep [⟨t, str "LOC"⟩] (str "location") = [t] ∧
      GroundingEventExtractor.nerStep [⟨t, str "FAC"⟩] (str "location") = [t] ∧
      GroundingEventExtractor.nerStep [⟨t, str "DATE"⟩] (str "time") = [t] ∧
      GroundingEventExtractor.nerStep [⟨t, str "TIME"⟩] (str "time") = [t] ∧
      GroundingEventExtractor.nerStep [⟨t, str "ORG"⟩] (str "response") =
        (if GroundingEventExtractor.guardish t then [t] else []) ∧
      GroundingEventExtractor.nerStep [⟨t, str "ORG"⟩] (str "vessel") =
        (if GroundingEventExtractor.guardish t then [] else [t]) ∧
      (∀ c : Str, GroundingEventExtractor.nerStep [⟨t, str "PERSON"⟩] c = [])) ∧
    (GroundingEventExtractor.nerStep [⟨str "Philippine Coast Guard", str "ORG"⟩]
        (str "response") = [str "Philippine Coast Guard"] ∧
      GroundingEventExtractor.nerStep [⟨str "Philippine Coast Guard", str "ORG"⟩]
        (str "vessel") = []) ∧
    (∀ (t : Str) (rest : List Ent),
      (SpacyGroundingExtractor.extract_with_ner (⟨t, str "PERSON"⟩ :: rest)).persons =
        t :: (SpacyGroundingExtractor.extract_with_ner rest).persons) ∧
    (∀ (m : SpacyGroundingExtractor.MatcherResults)
        (n : SpacyGroundingExtractor.NerResults)
        (d : SpacyGroundingExtractor.DepResults) (s : Str),
      s ∈ argLookup (SpacyGroundingExtractor.merge_arguments m n d) (str "vessels") ↔
        s ∈ m.vessels ∨ s ∈ d.vessels ∨
          (s ∈ n.organizations ∧ SpacyGroundingExtractor.org_is_vessel s = true)) := by
  refine ⟨?_, ⟨by decide, by decide⟩, ?_, ?_⟩
  · intro t
    refine ⟨rfl, rfl, rfl, rfl, rfl, ?_, ?_, fun c => rfl⟩
    · cases hg : GroundingEventExtractor.guardish t <;>
        simp [GroundingEventExtractor.nerStep, hg,
          (show str "ORG" ≠ str "GPE" from by decide),
          (show str "ORG" ≠ str "LOC" from by decide),
          (show str "ORG" ≠ str "FAC" from by decide),
          (show str "ORG" ≠ str "DATE" from by decide),
          (show str "ORG" ≠ str "TIME" from by decide),
          (show str "response" ≠ str "vessel" from by decide)]
    · cases hg : GroundingEventExtractor.guardish t <;>
        simp [GroundingEventExtractor.nerStep, hg,
          (show str "ORG" ≠ str "GPE" from by decide),
          (show str "ORG" ≠ str "LOC" from by decide),
          (show str "ORG" ≠ str "FAC" from by decide),
          (show str "ORG" ≠ str "DATE" from by decide),
          (show str "ORG" ≠ str "TIME" from by decide),
          (show str "vessel" ≠ str "response" from by decide)]
  · intro t rest
    rfl
  · intro m n d s
    have h1 : argLookup (SpacyGroundingExtractor.merge_arguments m n d) (str "vessels") =
        (m.vessels ++ d.vessels ++
          n.organizations.filter SpacyGroundingExtractor.org_is_vessel).dedup := rfl
    rw [h1]
    simp [List.mem_dedup, List.mem_append, List.mem_filter, or_assoc]
